import Mathlib

/-!
Verification of the `just-tools` backend (`src/backend/main.py`), a FastAPI
service exposing `/api/system-info`, `/api/health` and an SPA catch-all
route.  The Python handlers are shallowly embedded as pure Lean functions:
the inbound request is a record of headers and an optional transport
address, the geolocation provider is an explicit outcome value, and the
filesystem consulted by the static-file route is an explicit oracle.
-/

namespace JustTools

/-- An inbound HTTP request as seen by the handlers: the header mapping
(Starlette presents header names lowercased; we keep an association list)
and the optional transport-level client address (`request.client.host`,
`none` when the ASGI scope carries no client). -/
structure Request where
  headers : List (String × String)
  client : Option String
deriving Repr

/-- The whitespace characters Python's `str.strip()` removes at the ASCII
level: space, tab, newline, carriage return, vertical tab, form feed. -/
def pyIsSpace (c : Char) : Bool :=
  c == ' ' || c == '\t' || c == '\n' || c == '\r' || c == '\x0b' || c == '\x0c'

/-- Python `s.strip()`: drop leading and trailing whitespace characters. -/
def pyStrip (s : String) : String :=
  ⟨((s.data.dropWhile pyIsSpace).reverse.dropWhile pyIsSpace).reverse⟩

/-- ASCII lowercasing of one character (header names and the deny-list are
ASCII, where Python `str.lower()` agrees with this map). -/
def charLower (c : Char) : Char :=
  if 65 ≤ c.toNat ∧ c.toNat ≤ 90 then Char.ofNat (c.toNat + 32) else c

/-- Python `s.lower()` restricted to ASCII. -/
def strLower (s : String) : String :=
  ⟨s.data.map charLower⟩

/-- `request.headers.get(k)`: case-insensitive lookup of a header value,
first match wins (Starlette `Headers.get`). -/
def headerGet (hs : List (String × String)) (k : String) : Option String :=
  (hs.find? (fun p => strLower p.1 == strLower k)).map Prod.snd

/-- Python truthiness of an optional string: `None` and `""` are falsy. -/
def truthy : Option String → Bool
  | none => false
  | some s => s ≠ ""

/-- `s.split(",")[0]`: the characters before the first comma
(the whole string when no comma occurs). -/
def takeBeforeComma (s : String) : String :=
  ⟨s.data.takeWhile (fun c => c != ',')⟩

/-- `EXCLUDED_HEADERS` from `main.py`: the deny-list of sensitive header
names, matched against lowercased keys. -/
def EXCLUDED_HEADERS : List String :=
  ["cookie", "authorization", "x-api-key", "x-auth-token"]

/-- `filter_headers` from `main.py`: keep exactly the entries whose key,
lowercased, is not in `EXCLUDED_HEADERS`; values pass through unchanged. -/
def filter_headers (headers : List (String × String)) : List (String × String) :=
  headers.filter (fun kv => decide (strLower kv.1 ∉ EXCLUDED_HEADERS))

/-- `get_client_ip` from `main.py`: `x-forwarded-for` (first
comma-separated element, stripped) if truthy, else `x-real-ip` verbatim if
truthy, else `request.client.host`, else `"unknown"`. -/
def get_client_ip (request : Request) : String :=
  let forwarded_for := headerGet request.headers "x-forwarded-for"
  if truthy forwarded_for then
    pyStrip (takeBeforeComma (forwarded_for.getD ""))
  else
    let real_ip := headerGet request.headers "x-real-ip"
    if truthy real_ip then
      real_ip.getD ""
    else
      match request.client with
      | some host => host
      | none => "unknown"

/-- The JSON body of a geolocation provider response, modelled as a
string-to-string mapping: the expected shape is
`{status, country, regionName, city, isp}`, all string fields
(`data.get(k)` is association-list lookup, first match wins, like a
Python dict). -/
abbrev JsonObj := List (String × String)

/-- `data.get(k)`: `some v` when key `k` is present with value `v`. -/
def jget (d : JsonObj) (k : String) : Option String :=
  (List.find? (fun p => p.1 == k) d).map Prod.snd

/-- `data.get(k, dflt)`: lookup with a default for an absent key. -/
def jgetD (d : JsonObj) (k : String) (dflt : String) : String :=
  (jget d k).getD dflt

/-- What `response.json()` would yield: a parsed object, or a parsing
failure (which raises in Python and is caught by the handler's `except`). -/
inductive ParseResult where
  | ok (data : JsonObj)
  | parseErr
deriving Repr

/-- The observable outcome of the single outbound HTTP GET to the
geolocation provider: a response with its status code and (possibly
unparseable) body, a network error, or a timeout (the 5-second bound
elapsing).  Errors and timeouts raise in Python and are caught by the
handler's `except`. -/
inductive FetchOutcome where
  | response (statusCode : Nat) (body : ParseResult)
  | netError
  | timeout
deriving Repr

/-- The `{"location": ..., "isp": ...}` dict returned by
`get_ip_location`. -/
structure GeoResult where
  location : String
  isp : String
deriving Repr, DecidableEq

/-- The fallback result `{"location": "未知", "isp": "未知"}`. -/
def fallbackGeo : GeoResult := { location := "未知", isp := "未知" }

/-- `get_ip_location` from `main.py`, as a function of the outcome of its
one outbound call.  On a 200 response whose body parses and has
`status == "success"`, the location is country/regionName/city (each
defaulting to `""`) joined by single spaces and stripped, and the isp is
the `isp` field defaulting to `"未知"`.  Every other outcome — non-200
status, unparseable body, non-success status field, network error,
timeout — reaches the final fallback return (exceptions are swallowed by
the `except` clause, which only prints). -/
def get_ip_location (outcome : FetchOutcome) : GeoResult :=
  match outcome with
  | .response statusCode body =>
    if statusCode == 200 then
      match body with
      | .ok data =>
        if jget data "status" == some "success" then
          { location :=
              pyStrip (jgetD data "country" "" ++ " " ++ jgetD data "regionName" ""
                ++ " " ++ jgetD data "city" ""),
            isp := jgetD data "isp" "未知" }
        else fallbackGeo
      | .parseErr => fallbackGeo
    else fallbackGeo
  | .netError => fallbackGeo
  | .timeout => fallbackGeo

/-- The failure cases enumerated for the geolocation call: non-200 HTTP
status, a body that fails to parse, a parsed body whose `status` field is
not `"success"`, a network error, or a timeout. -/
def isGeoFailure : FetchOutcome → Bool
  | .response statusCode body =>
    statusCode != 200 ||
      match body with
      | .ok data => jget data "status" != some "success"
      | .parseErr => true
  | .netError => true
  | .timeout => true

/-- A JSON value, as assembled into a handler's response body. -/
inductive Json where
  | str (s : String)
  | obj (fields : List (String × Json))
deriving Repr

/-- An HTTP response from a handler: status code and JSON body.  FastAPI
serialises a returned dict as a JSON response with status 200. -/
structure HttpResponse where
  status : Nat
  body : Json
deriving Repr

/-- Render a filtered header mapping as a JSON object of string values. -/
def headersJson (hs : List (String × String)) : Json :=
  .obj (hs.map (fun kv => (kv.1, Json.str kv.2)))

/-- The `GET /api/system-info` handler `get_system_info` from `main.py`:
derives the client IP, resolves geolocation (the outcome of the outbound
call is the explicit `outcome` argument), filters the request headers, and
returns the four-key JSON object. -/
def get_system_info (request : Request) (outcome : FetchOutcome) : HttpResponse :=
  let client_ip := get_client_ip request
  let location_info := get_ip_location outcome
  let filtered_headers := filter_headers request.headers
  { status := 200,
    body := .obj [
      ("ip", .str client_ip),
      ("location", .str location_info.location),
      ("isp", .str location_info.isp),
      ("headers", headersJson filtered_headers)] }

/-- The `GET /api/health` handler `health_check` from `main.py`. -/
def health_check : HttpResponse :=
  { status := 200, body := .obj [("status", .str "ok")] }

/-- Whether a path string is absolute (begins with `/`). -/
def absPath (s : String) : Bool :=
  match s.data with
  | [] => false
  | c :: _ => c == '/'

/-- Split a character list at every occurrence of `sep` (Python
`s.split(sep)` for a one-character separator). -/
def splitCharAux (sep : Char) (acc : List Char) : List Char → List String
  | [] => [⟨acc.reverse⟩]
  | c :: rest =>
    if c == sep then ⟨acc.reverse⟩ :: splitCharAux sep [] rest
    else splitCharAux sep (c :: acc) rest

/-- Split a string at every occurrence of the character `sep`. -/
def splitChar (sep : Char) (s : String) : List String :=
  splitCharAux sep [] s.data

/-- Join path segments with `/`. -/
def joinSlash : List String → String
  | [] => ""
  | [s] => s
  | s :: rest => s ++ "/" ++ joinSlash rest

/-- `os.path.join(a, b)` on POSIX for two components: an absolute second
component replaces the first, otherwise they are joined with `/`. -/
def osPathJoin (a b : String) : String :=
  if absPath b then b
  else if a = "" then b
  else a ++ "/" ++ b

/-- Collapse path segments the way the operating system resolves a path:
drop empty and `.` segments, and let `..` cancel the preceding segment
(leading `..` segments of a relative path are kept).  `stack` holds the
already-resolved segments in reverse. -/
def normSegsAux (stack : List String) : List String → List String
  | [] => stack.reverse
  | seg :: rest =>
    if seg = "" ∨ seg = "." then normSegsAux stack rest
    else if seg = ".." then
      match stack with
      | [] => normSegsAux [".."] rest
      | top :: lower =>
        if top = ".." then normSegsAux (".." :: stack) rest
        else normSegsAux lower rest
    else normSegsAux (seg :: stack) rest

/-- The path a string denotes once the OS resolves `.` and `..` segments:
the filesystem oracle below is keyed on such resolved paths, which is how
`os.path.isfile` and `open` interpret a path containing `..`. -/
def resolvePath (p : String) : String :=
  (if absPath p then "/" else "") ++ joinSlash (normSegsAux [] (splitChar '/' p))

/-- A filesystem oracle: the content of the regular file at a resolved
path, or `none` when no regular file exists there. -/
def FileSystem := String → Option String

/-- `os.path.isfile(p)` against the oracle. -/
def isfile (fs : FileSystem) (p : String) : Bool :=
  (fs (resolvePath p)).isSome

/-- A `FileResponse(path)`: status 200 with the file at `path` streamed as
the body. -/
structure FileResp where
  status : Nat
  path : String
deriving Repr, DecidableEq

/-- The bytes a `FileResp` actually serves: the oracle's content at the
resolved response path. -/
def servedContent (fs : FileSystem) (r : FileResp) : Option String :=
  fs (resolvePath r.path)

/-- The catch-all route `catch_all` from `main.py`: join the request path
onto `"dist"`; if a file exists there return it, otherwise return
`dist/index.html` (the SPA fallback). -/
def catch_all (fs : FileSystem) (full_path : String) : FileResp :=
  let file_path := osPathJoin "dist" full_path
  if isfile fs file_path then
    { status := 200, path := file_path }
  else
    { status := 200, path := "dist/index.html" }

/-- A sample build-output filesystem: the SPA index, one bundled asset,
and a sensitive file that lives outside the `dist` directory. -/
def sampleFs : FileSystem := fun p =>
  if p = "dist/index.html" then some "<html>index</html>"
  else if p = "dist/app.js" then some "console.log(1)"
  else if p = "secret.txt" then some "top-secret"
  else none

/-- The geolocation provider body from the spec's worked example. -/
def japanBody : JsonObj :=
  [("status", "success"), ("country", "Japan"), ("regionName", "Tokyo"),
   ("city", "Shibuya"), ("isp", "ExampleISP")]

/-- Claim C1: `filter_headers` drops exactly the entries whose lowercased
key is in `{cookie, authorization, x-api-key, x-auth-token}`, and keeps
every other entry of the input mapping with its value unchanged. -/
theorem filter_headers_excludes_exactly_denylist
    (H : List (String × String)) (k v : String) :
    (strLower k ∈ EXCLUDED_HEADERS → (k, v) ∉ filter_headers H) ∧
    ((k, v) ∈ filter_headers H ↔ (k, v) ∈ H ∧ strLower k ∉ EXCLUDED_HEADERS) := by
  have hiff : (k, v) ∈ filter_headers H ↔
      (k, v) ∈ H ∧ strLower k ∉ EXCLUDED_HEADERS := by
    simp [filter_headers, List.mem_filter]
  exact ⟨fun hx hmem => (hiff.mp hmem).2 hx, hiff⟩

/-- Claim C1 witness: at a concrete mapping, a `Cookie` entry is dropped
and a `Host` entry is kept with its value. -/
theorem filter_headers_excludes_exactly_denylist_witness :
    strLower "Cookie" ∈ EXCLUDED_HEADERS ∧
    ("Cookie", "a=1") ∉ filter_headers [("Cookie", "a=1"), ("Host", "h")] ∧
    ("Host", "h") ∈ filter_headers [("Cookie", "a=1"), ("Host", "h")] :=
  ⟨by decide,
   (filter_headers_excludes_exactly_denylist
      [("Cookie", "a=1"), ("Host", "h")] "Cookie" "a=1").1 (by decide),
   (filter_headers_excludes_exactly_denylist
      [("Cookie", "a=1"), ("Host", "h")] "Host" "h").2.mpr ⟨by decide, by decide⟩⟩

/-- Claim C2: on every failing geolocation outcome — non-200 status,
unparseable body, non-success status field, network error, timeout —
`get_ip_location` returns the fallback pair `("未知", "未知")`, and the
enclosing `get_system_info` handler still completes with a 200 response
(no exception propagates). -/
theorem get_ip_location_failure_fallback (o : FetchOutcome) (req : Request)
    (h : isGeoFailure o = true) :
    get_ip_location o = { location := "未知", isp := "未知" } ∧
    (get_system_info req o).status = 200 := by
  refine ⟨?_, rfl⟩
  cases o with
  | netError => rfl
  | timeout => rfl
  | response statusCode body =>
    cases body with
    | parseErr =>
      show get_ip_location (.response statusCode .parseErr) = fallbackGeo
      simp [get_ip_location, fallbackGeo]
    | ok data =>
      have h' : statusCode ≠ 200 ∨ jget data "status" ≠ some "success" := by
        simpa [isGeoFailure] using h
      show get_ip_location (.response statusCode (.ok data)) = fallbackGeo
      rcases h' with h' | h'
      · simp [get_ip_location, h']
      · simp [get_ip_location, h']

/-- Claim C2 witness: a timeout outcome yields the fallback pair and a
completed 200 response from the handler. -/
theorem get_ip_location_failure_fallback_witness :
    isGeoFailure .timeout = true ∧
    (get_ip_location .timeout = { location := "未知", isp := "未知" } ∧
     (get_system_info ⟨[], none⟩ .timeout).status = 200) :=
  ⟨rfl, get_ip_location_failure_fallback .timeout ⟨[], none⟩ rfl⟩

/-- Claim C3 counterexample: with an `X-Forwarded-For` header present but
empty (and an `X-Real-IP` of `9.9.9.9`), the claim as stated predicts the
derived IP `""` (the stripped text before the first comma of the empty
value), but the code falls through and returns `9.9.9.9`. -/
theorem get_client_ip_empty_xff_counterexample :
    headerGet [("x-forwarded-for", ""), ("x-real-ip", "9.9.9.9")]
        "x-forwarded-for" = some "" ∧
    get_client_ip ⟨[("x-forwarded-for", ""), ("x-real-ip", "9.9.9.9")], none⟩
        = "9.9.9.9" ∧
    get_client_ip ⟨[("x-forwarded-for", ""), ("x-real-ip", "9.9.9.9")], none⟩
        ≠ pyStrip (takeBeforeComma "") := by
  refine ⟨by decide, by decide, by decide⟩

/-- Claim C3 (amended): the precedence holds for headers that are present
with a non-empty value: a non-empty `X-Forwarded-For` yields the stripped
text before its first comma; else a non-empty `X-Real-IP` is returned
verbatim; else the transport address; and the spec's worked example
`X-Forwarded-For: 1.2.3.4, 5.6.7.8` derives `1.2.3.4`. -/
theorem get_client_ip_precedence (req : Request) :
    (∀ ff, headerGet req.headers "x-forwarded-for" = some ff → ff ≠ "" →
      get_client_ip req = pyStrip (takeBeforeComma ff)) ∧
    (truthy (headerGet req.headers "x-forwarded-for") = false →
      ∀ rip, headerGet req.headers "x-real-ip" = some rip → rip ≠ "" →
        get_client_ip req = rip) ∧
    (truthy (headerGet req.headers "x-forwarded-for") = false →
      truthy (headerGet req.headers "x-real-ip") = false →
      ∀ host, req.client = some host → get_client_ip req = host) ∧
    get_client_ip ⟨[("x-forwarded-for", "1.2.3.4, 5.6.7.8")], some "7.7.7.7"⟩
      = "1.2.3.4" := by
  refine ⟨?_, ?_, ?_, by decide⟩
  · intro ff hff hne
    have ht : truthy (some ff) = true := by simpa [truthy] using hne
    simp [get_client_ip, hff, ht]
  · intro hf rip hrip hne
    have ht : truthy (some rip) = true := by simpa [truthy] using hne
    simp [get_client_ip, hf, hrip, ht]
  · intro hf hr host hc
    simp [get_client_ip, hf, hr, hc]

/-- Claim C3 witness: the first (non-empty `X-Forwarded-For`) branch of
the precedence theorem at a concrete request. -/
theorem get_client_ip_precedence_witness :
    headerGet [("x-forwarded-for", " 10.0.0.1 ,8.8.8.8")] "x-forwarded-for"
      = some " 10.0.0.1 ,8.8.8.8" ∧
    get_client_ip ⟨[("x-forwarded-for", " 10.0.0.1 ,8.8.8.8")], none⟩
      = pyStrip (takeBeforeComma " 10.0.0.1 ,8.8.8.8") :=
  ⟨by decide,
   (get_client_ip_precedence ⟨[("x-forwarded-for", " 10.0.0.1 ,8.8.8.8")], none⟩).1
     " 10.0.0.1 ,8.8.8.8" (by decide) (by decide)⟩

/-- Claim C4: the `/api/system-info` handler returns status 200 and a body
that is exactly the four-key object built from `get_client_ip`,
`get_ip_location` and `filter_headers`. -/
theorem get_system_info_shape (req : Request) (o : FetchOutcome) :
    get_system_info req o =
      { status := 200,
        body := .obj [
          ("ip", .str (get_client_ip req)),
          ("location", .str (get_ip_location o).location),
          ("isp", .str (get_ip_location o).isp),
          ("headers", headersJson (filter_headers req.headers))] } := rfl

/-- Claim C5: on a 200 response whose parsed body has status `"success"`,
`get_ip_location` joins the country, regionName and city fields with
single spaces, strips the ends, and takes the `isp` field (defaulting to
`"未知"` only when absent). -/
theorem get_ip_location_success (data : JsonObj)
    (h : jget data "status" = some "success") :
    get_ip_location (.response 200 (.ok data)) =
      { location := pyStrip (jgetD data "country" "" ++ " " ++
          jgetD data "regionName" "" ++ " " ++ jgetD data "city" ""),
        isp := jgetD data "isp" "未知" } := by
  simp [get_ip_location, h]

/-- Claim C5 witness: the spec's worked example body yields
`("Japan Tokyo Shibuya", "ExampleISP")`. -/
theorem get_ip_location_success_witness :
    jget japanBody "status" = some "success" ∧
    get_ip_location (.response 200 (.ok japanBody)) =
      { location := "Japan Tokyo Shibuya", isp := "ExampleISP" } :=
  ⟨by decide, (get_ip_location_success japanBody (by decide)).trans (by decide)⟩

/-- Claim C6: when no file exists at the joined path under `dist`, the
catch-all route serves `dist/index.html` with status 200 (never a 404);
when a file does exist there, its contents are served with status 200. -/
theorem catch_all_spa_fallback (fs : FileSystem) (p : String) (idx : String)
    (hidx : fs "dist/index.html" = some idx) :
    (fs (resolvePath (osPathJoin "dist" p)) = none →
      catch_all fs p = { status := 200, path := "dist/index.html" } ∧
      servedContent fs (catch_all fs p) = some idx) ∧
    (∀ c, fs (resolvePath (osPathJoin "dist" p)) = some c →
      (catch_all fs p).status = 200 ∧
      servedContent fs (catch_all fs p) = some c) := by
  constructor
  · intro hnone
    have hc : catch_all fs p = { status := 200, path := "dist/index.html" } := by
      simp [catch_all, isfile, hnone]
    refine ⟨hc, ?_⟩
    rw [hc]
    show fs (resolvePath "dist/index.html") = some idx
    have hres : resolvePath "dist/index.html" = "dist/index.html" := by decide
    rw [hres, hidx]
  · intro c hc
    have hi : isfile fs (osPathJoin "dist" p) = true := by
      simp [isfile, hc]
    have hcc : catch_all fs p = { status := 200, path := osPathJoin "dist" p } := by
      simp [catch_all, hi]
    rw [hcc]
    exact ⟨rfl, hc⟩

/-- Claim C6 witness: on the sample filesystem, a nonexistent client-side
route is answered with the index document's content at status 200. -/
theorem catch_all_spa_fallback_witness :
    sampleFs "dist/index.html" = some "<html>index</html>" ∧
    sampleFs (resolvePath (osPathJoin "dist" "some/client/route")) = none ∧
    (catch_all sampleFs "some/client/route"
        = { status := 200, path := "dist/index.html" } ∧
     servedContent sampleFs (catch_all sampleFs "some/client/route")
        = some "<html>index</html>") :=
  ⟨by decide, by decide,
   (catch_all_spa_fallback sampleFs "some/client/route" "<html>index</html>"
      (by decide)).1 (by decide)⟩

/-- Claim C7: with no `X-Forwarded-For` header, no `X-Real-IP` header and
no transport-level client address, `get_client_ip` returns the literal
string `"unknown"`. -/
theorem get_client_ip_unknown (req : Request)
    (h1 : headerGet req.headers "x-forwarded-for" = none)
    (h2 : headerGet req.headers "x-real-ip" = none)
    (h3 : req.client = none) :
    get_client_ip req = "unknown" := by
  simp [get_client_ip, h1, h2, h3, truthy]

/-- Claim C7 witness: a request with no headers and no client address. -/
theorem get_client_ip_unknown_witness :
    headerGet ([] : List (String × String)) "x-forwarded-for" = none ∧
    headerGet ([] : List (String × String)) "x-real-ip" = none ∧
    get_client_ip ⟨[], none⟩ = "unknown" :=
  ⟨rfl, rfl, get_client_ip_unknown ⟨[], none⟩ rfl rfl rfl⟩

/-- Claim C8: the `/api/health` handler always returns status 200 with
body exactly `{"status": "ok"}`; it reads no state at all. -/
theorem health_check_ok :
    health_check = { status := 200, body := .obj [("status", .str "ok")] } := rfl

/-- Claim C9: the catch-all route performs no traversal sanitization:
there is a request path whose first segment is `..` for which the joined
path resolves outside the `dist` directory, and the file found there is
served. -/
theorem catch_all_traversal :
    ∃ p : String,
      (splitChar '/' p).headD "" = ".." ∧
      (splitChar '/' (resolvePath (osPathJoin "dist" p))).headD "" ≠ "dist" ∧
      resolvePath (osPathJoin "dist" p) = "secret.txt" ∧
      sampleFs "secret.txt" = some "top-secret" ∧
      servedContent sampleFs (catch_all sampleFs p) = some "top-secret" :=
  ⟨"../secret.txt", by decide, by decide, by decide, by decide, by decide⟩

/-- Claim C10: an `X-Forwarded-For` header that is present but empty is
treated as absent (truthiness, not key presence), falling through to
`X-Real-IP` and then the transport address; an empty `X-Real-IP` is
likewise skipped; but a non-empty `X-Forwarded-For` of `", 5.6.7.8"` does
not fall through and derives the empty string. -/
theorem get_client_ip_truthiness (req : Request) :
    (headerGet req.headers "x-forwarded-for" = some "" →
      get_client_ip req =
        (match headerGet req.headers "x-real-ip" with
         | some rip => if rip ≠ "" then rip else req.client.getD "unknown"
         | none => req.client.getD "unknown")) ∧
    (headerGet req.headers "x-forwarded-for" = some "" →
      headerGet req.headers "x-real-ip" = some "" →
      get_client_ip req = req.client.getD "unknown") ∧
    get_client_ip ⟨[("x-forwarded-for", ", 5.6.7.8")], some "9.9.9.9"⟩ = "" := by
  refine ⟨?_, ?_, by decide⟩
  · intro h
    have hf0 : truthy (some "") = false := rfl
    have hfn : truthy none = false := rfl
    cases hr : headerGet req.headers "x-real-ip" with
    | none =>
      cases hc : req.client with
      | none => simp [get_client_ip, h, hf0, hfn, hr, hc]
      | some host => simp [get_client_ip, h, hf0, hfn, hr, hc]
    | some rip =>
      by_cases hrip : rip = ""
      · subst hrip
        cases hc : req.client with
        | none => simp [get_client_ip, h, hf0, hr, hc]
        | some host => simp [get_client_ip, h, hf0, hr, hc]
      · have ht : truthy (some rip) = true := by simpa [truthy] using hrip
        simp [get_client_ip, h, hf0, hr, ht, hrip]
  · intro h1 h2
    have hf0 : truthy (some "") = false := rfl
    cases hc : req.client with
    | none => simp [get_client_ip, h1, h2, hf0, hc]
    | some host => simp [get_client_ip, h1, h2, hf0, hc]

/-- Claim C10 witness: an empty `X-Forwarded-For` falls through to the
`X-Real-IP` value at a concrete request. -/
theorem get_client_ip_truthiness_witness :
    headerGet [("x-forwarded-for", ""), ("x-real-ip", "7.7.7.7")]
        "x-forwarded-for" = some "" ∧
    get_client_ip ⟨[("x-forwarded-for", ""), ("x-real-ip", "7.7.7.7")], none⟩
        = "7.7.7.7" :=
  ⟨by decide,
   ((get_client_ip_truthiness
      ⟨[("x-forwarded-for", ""), ("x-real-ip", "7.7.7.7")], none⟩).1
     (by decide)).trans (by decide)⟩

end JustTools
